import Mathlib

/-!
Verification development for the SSH-terminal core of dogoctl (src/main.go).

The definitions below are a shallow embedding of the Go source:
pure helpers become Lean functions, the bubbletea model-update code
becomes explicit state passing on a Model record, and the side effects
of teardown and PTY writes are tracked in an Effects record.
Machine integers are modelled as Int (Go int) with explicit `% 2 ^ 16`
where the source converts to uint16 and `% 2 ^ 8` where it converts
to byte.
-/

namespace Dogoctl

/-- a byte sequence, each element a value in 0..255 -/
abbrev Bytes := List Nat

/-- UTF-8 encoding of one character, as produced by the Go conversion
string -> byte slice (Go strings are UTF-8). -/
def utf8EncodeChar (c : Char) : Bytes :=
  let v := c.toNat
  if v < 0x80 then [v]
  else if v < 0x800 then
    [0xC0 ||| (v >>> 6), 0x80 ||| (v &&& 0x3F)]
  else if v < 0x10000 then
    [0xE0 ||| (v >>> 12), 0x80 ||| ((v >>> 6) &&& 0x3F), 0x80 ||| (v &&& 0x3F)]
  else
    [0xF0 ||| (v >>> 18), 0x80 ||| ((v >>> 12) &&& 0x3F),
     0x80 ||| ((v >>> 6) &&& 0x3F), 0x80 ||| (v &&& 0x3F)]

/-- the Go conversion from a string to its byte slice. -/
def goBytes (s : String) : Bytes := s.data.flatMap utf8EncodeChar

/-!
bubbletea key-type constants (tea.KeyType), from the key table of the
bubbletea library used by src/main.go: control keys are their ASCII
control codes (KeyCtrlA = 1 .. KeyCtrlZ = 26, KeyEnter = 13 = CtrlM,
KeyTab = 9 = CtrlI, KeyEsc = 27, KeyBackspace = 127) and the named
special keys are distinct negative codes.  The source only compares
these values for equality, except for the range test
KeyCtrlA <= t <= KeyCtrlZ, so only distinctness, the control-code
values 1..26 and the negativity of the special codes matter.
-/

def keyRunes : Int := -1
def keyUp : Int := -2
def keyDown : Int := -3
def keyRight : Int := -4
def keyLeft : Int := -5
def keyShiftTab : Int := -6
def keyHome : Int := -7
def keyEnd : Int := -8
def keyPgUp : Int := -9
def keyPgDown : Int := -10
def keyCtrlPgUp : Int := -11
def keyCtrlPgDown : Int := -12
def keyDelete : Int := -13
def keyInsert : Int := -14
def keySpace : Int := -15
def keyF1 : Int := -38
def keyF2 : Int := -39
def keyF3 : Int := -40
def keyF4 : Int := -41
def keyF5 : Int := -42
def keyF6 : Int := -43
def keyF7 : Int := -44
def keyF8 : Int := -45
def keyF9 : Int := -46
def keyF10 : Int := -47
def keyF11 : Int := -48
def keyF12 : Int := -49
def keyCtrlA : Int := 1
def keyCtrlC : Int := 3
def keyCtrlD : Int := 4
def keyTab : Int := 9
def keyEnter : Int := 13
def keyCtrlZ : Int := 26
def keyEsc : Int := 27
def keyBackspace : Int := 127

/-- the bubbletea name of a control-letter key: "ctrl+a" .. "ctrl+z". -/
def ctrlLetterName (t : Int) : String :=
  "ctrl+" ++ String.mk [Char.ofNat (96 + t.toNat)]

/-- the bubbletea keyNames table restricted to the key types the model
covers; unknown types give the empty string, as tea.KeyMsg.String does. -/
def keyName (t : Int) : String :=
  if t = keyEnter then "enter"
  else if t = keyTab then "tab"
  else if t = keyBackspace then "backspace"
  else if t = keyEsc then "esc"
  else if t = keySpace then " "
  else if t = keyUp then "up"
  else if t = keyDown then "down"
  else if t = keyRight then "right"
  else if t = keyLeft then "left"
  else if t = keyShiftTab then "shift+tab"
  else if t = keyHome then "home"
  else if t = keyEnd then "end"
  else if t = keyPgUp then "pgup"
  else if t = keyPgDown then "pgdown"
  else if t = keyCtrlPgUp then "ctrl+pgup"
  else if t = keyCtrlPgDown then "ctrl+pgdown"
  else if t = keyDelete then "delete"
  else if t = keyInsert then "insert"
  else if 1 ≤ t ∧ t ≤ 26 then ctrlLetterName t
  else if t = keyF1 then "f1"
  else if t = keyF2 then "f2"
  else if t = keyF3 then "f3"
  else if t = keyF4 then "f4"
  else if t = keyF5 then "f5"
  else if t = keyF6 then "f6"
  else if t = keyF7 then "f7"
  else if t = keyF8 then "f8"
  else if t = keyF9 then "f9"
  else if t = keyF10 then "f10"
  else if t = keyF11 then "f11"
  else if t = keyF12 then "f12"
  else ""

/-- a tea.KeyMsg: its KeyType code and its rune payload (the Alt flag is
not used by any code path modelled here). -/
structure KeyMsg where
  type : Int
  runes : List Char
  deriving Repr, DecidableEq

/-- tea.KeyMsg.String: the runes themselves for a KeyRunes message,
otherwise the keyNames entry of the type. -/
def KeyMsg.keyStr (k : KeyMsg) : String :=
  if k.type = keyRunes then String.mk k.runes else keyName k.type

/-- getANSISequence from src/main.go lines 5436-5459. -/
def getANSISequence (key : Int) : Bytes :=
  if key = keyUp then [0x1b, 0x5b, 0x41]
  else if key = keyDown then [0x1b, 0x5b, 0x42]
  else if key = keyRight then [0x1b, 0x5b, 0x43]
  else if key = keyLeft then [0x1b, 0x5b, 0x44]
  else if key = keyHome then [0x1b, 0x5b, 0x48]
  else if key = keyEnd then [0x1b, 0x5b, 0x46]
  else if key = keyPgUp then [0x1b, 0x5b, 0x35, 0x7e]
  else if key = keyPgDown then [0x1b, 0x5b, 0x36, 0x7e]
  else if key = keyDelete then [0x1b, 0x5b, 0x33, 0x7e]
  else []

/-- getFunctionKeySequence from src/main.go lines 5462-5491. -/
def getFunctionKeySequence (key : Int) : Bytes :=
  if key = keyF1 then [0x1b, 0x4f, 0x50]
  else if key = keyF2 then [0x1b, 0x4f, 0x51]
  else if key = keyF3 then [0x1b, 0x4f, 0x52]
  else if key = keyF4 then [0x1b, 0x4f, 0x53]
  else if key = keyF5 then [0x1b, 0x5b, 0x31, 0x35, 0x7e]
  else if key = keyF6 then [0x1b, 0x5b, 0x31, 0x37, 0x7e]
  else if key = keyF7 then [0x1b, 0x5b, 0x31, 0x38, 0x7e]
  else if key = keyF8 then [0x1b, 0x5b, 0x31, 0x39, 0x7e]
  else if key = keyF9 then [0x1b, 0x5b, 0x32, 0x30, 0x7e]
  else if key = keyF10 then [0x1b, 0x5b, 0x32, 0x31, 0x7e]
  else if key = keyF11 then [0x1b, 0x5b, 0x32, 0x33, 0x7e]
  else if key = keyF12 then [0x1b, 0x5b, 0x32, 0x34, 0x7e]
  else []

/-- the key-type switch of model.handleSSHInput (src/main.go lines
5341-5393): the byte sequence built for one key message.  The Go switch
cases are disjoint so the if-chain order is immaterial; the default
branch mirrors the Go code exactly: rune payload first, then the
single-byte String() fallback (Go len is the byte length), then the
KeyCtrlA..KeyCtrlZ range, else no bytes.  The Go byte conversion is
modelled with an explicit `% 2 ^ 8`. -/
def keyToBytes (msg : KeyMsg) : Bytes :=
  if msg.type = keyEnter then [0x0d]
  else if msg.type = keyBackspace then [0x7f]
  else if msg.type = keyTab then [0x09]
  else if msg.type = keySpace then [0x20]
  else if msg.type = keyCtrlC then [3]
  else if msg.type = keyCtrlD then [4]
  else if msg.type = keyCtrlZ then [26]
  else if msg.type = keyUp ∨ msg.type = keyDown ∨ msg.type = keyLeft ∨ msg.type = keyRight then
    getANSISequence msg.type
  else if msg.type = keyDelete then getANSISequence msg.type
  else if msg.type = keyF1 ∨ msg.type = keyF2 ∨ msg.type = keyF3 ∨ msg.type = keyF4 ∨
      msg.type = keyF5 ∨ msg.type = keyF6 ∨ msg.type = keyF7 ∨ msg.type = keyF8 ∨
      msg.type = keyF9 ∨ msg.type = keyF10 ∨ msg.type = keyF11 ∨ msg.type = keyF12 then
    getFunctionKeySequence msg.type
  else if msg.runes.length > 0 then goBytes (String.mk msg.runes)
  else
    let keyStr := msg.keyStr
    if keyStr ≠ "" ∧ (goBytes keyStr).length = 1 then goBytes keyStr
    else if keyCtrlA ≤ msg.type ∧ msg.type ≤ keyCtrlZ then
      [(msg.type - keyCtrlA + 1).toNat % 256]
    else []

/-- an event flowing from the PTY reader goroutine to the UI loop via
the sshOutputChan channel: sshTerminalOutputMsg carries the raw bytes
read (sent to the UI as a Go string), sshTerminalClosedMsg signals a
clean close, and errMsg carries a read-error cause. -/
inductive SSHEvent where
  | outputMsg (data : Bytes)
  | closedMsg
  | errMsg (cause : String)
  deriving Repr, DecidableEq

/-- the last rows/cols pair handed to pty.Setsize or pty.StartWithSize
(pty.Winsize carries uint16 fields, so values are taken `% 2 ^ 16`). -/
structure Winsize where
  rows : Nat
  cols : Nat
  deriving Repr, DecidableEq

/-- the Go conversion int -> uint16 applied by uint16(availableRows)
and uint16(availableCols); both arguments are positive in the source. -/
def toUint16 (n : Int) : Nat := n.toNat % 65536

/-- availableRows as computed at src/main.go lines 1015-1018, 1127-1130,
3696-3699 and 5156-5159: the host height minus the reserved chrome,
floor-clamped to 5. -/
def availableRows (height topPad : Int) : Int :=
  let r := height - topPad - 6
  if r < 5 then 5 else r

/-- availableCols as computed at src/main.go lines 1019-1022, 1131-1134
and 5160-5163: the host width minus border and padding, floor-clamped
to 40.  The render path (line 3702) does NOT use this clamp. -/
def availableCols (width : Int) : Int :=
  let c := width - 4
  if c < 40 then 40 else c

/-- the rows/cols Winsize the resize paths hand to pty.Setsize. -/
def viewportWinsize (width height topPad : Int) : Winsize :=
  ⟨toUint16 (availableRows height topPad), toUint16 (availableCols width)⟩

/-- the SSH-session slice of the bubbletea model (src/main.go model
struct).  Handles are modelled by what the claims observe: the PTY
handle by the last Winsize sent to it (none when the field is nil),
the process handle by a Boolean (present with a live Process), and the
emulation engine by its current (cols, rows) dimensions, the only part
of the engine state the resize and render code touches.  getTopPadding
reads the environment once per call and is constant during a run, so it
is a model field. -/
structure Model where
  width : Int
  height : Int
  topPad : Int
  sshTerminalActive : Bool := false
  sshTerminalConfirmExit : Bool := false
  sshTerminalPTY : Option Winsize := none
  sshTerminalCmd : Bool := false
  sshTerminalEmulator : Option (Int × Int) := none
  sshTerminalParser : Bool := false
  sshTerminalHost : String := ""
  sshTerminalIP : String := ""
  sshTerminalRawOutput : Option String := none
  sshOutputChan : List SSHEvent := []
  deriving Repr, DecidableEq

/-- the externally observable side effects of one update step: how many
times a child process was killed, how many times the PTY descriptor was
closed, and the byte sequences written to the PTY, in order. -/
structure Effects where
  kills : Nat := 0
  closes : Nat := 0
  writes : List Bytes := []
  deriving Repr, DecidableEq

/-- no side effects. -/
def noEff : Effects := {}

/-- model.closeSSHTerminal (src/main.go lines 5407-5433): kill the child
if a command with a live process is held, close the PTY if held, clear
every session field, and drain the output channel. -/
def closeSSHTerminal (m : Model) : Model × Effects :=
  ({ m with
      sshTerminalActive := false
      sshTerminalEmulator := none
      sshTerminalParser := false
      sshTerminalPTY := none
      sshTerminalCmd := false
      sshTerminalRawOutput := m.sshTerminalRawOutput.map (fun _ => "")
      sshTerminalHost := ""
      sshTerminalIP := ""
      sshTerminalConfirmExit := false
      sshOutputChan := [] },
   { kills := if m.sshTerminalCmd then 1 else 0
     closes := if m.sshTerminalPTY.isSome then 1 else 0
     writes := [] })

/-- model.writeToPTY (src/main.go lines 5301-5314): a nil PTY is an
error with nothing written; otherwise the bytes are handed to the PTY
write.  The OS-level write-failure branch is environment
nondeterminism and is not modelled; the claims are about the bytes
passed to the write call. -/
def writeToPTY (m : Model) (b : Bytes) : Model × Effects :=
  match m.sshTerminalPTY with
  | none => (m, noEff)
  | some _ => (m, { writes := [b] })

/-- model.handleSSHInput (src/main.go lines 5316-5404): Escape toggles
the exit-confirmation flag and sends nothing; with no PTY input is
ignored; otherwise the key is encoded by the switch (keyToBytes) and
the bytes, if any, are written to the PTY. -/
def handleSSHInput (m : Model) (msg : KeyMsg) : Model × Effects :=
  if msg.type = keyEsc ∨ msg.keyStr = "esc" then
    if m.sshTerminalConfirmExit = false then
      ({ m with sshTerminalConfirmExit := true }, noEff)
    else
      ({ m with sshTerminalConfirmExit := false }, noEff)
  else if m.sshTerminalPTY.isNone then (m, noEff)
  else
    let keyBytes := keyToBytes msg
    if keyBytes.length > 0 then writeToPTY m keyBytes else (m, noEff)

/-- a message reaching model.updateSSHTerminal: a key message, or any
other message kind (which that function ignores). -/
inductive TeaMsg where
  | key (k : KeyMsg)
  | nonKey
  deriving Repr, DecidableEq

/-- model.updateSSHTerminal (src/main.go lines 5269-5299): while the
exit-confirmation dialog is pending, y/Y confirms (clear the flag, then
tear down), n/N/esc cancels, anything else is ignored; otherwise key
messages go to handleSSHInput and other messages are ignored. -/
def updateSSHTerminal (m : Model) (msg : TeaMsg) : Model × Effects :=
  if m.sshTerminalConfirmExit then
    match msg with
    | .key k =>
      if k.keyStr = "y" ∨ k.keyStr = "Y" then
        closeSSHTerminal { m with sshTerminalConfirmExit := false }
      else if k.keyStr = "n" ∨ k.keyStr = "N" ∨ k.keyStr = "esc" then
        ({ m with sshTerminalConfirmExit := false }, noEff)
      else (m, noEff)
    | .nonKey => (m, noEff)
  else
    match msg with
    | .key k => handleSSHInput m k
    | .nonKey => (m, noEff)

/-- the tea.WindowSizeMsg case of model.Update (src/main.go lines
1097-1149): clamp the raw size, store it, and if a PTY is held,
Setsize it with the floor-clamped viewport and Resize the emulator, if
present, with the identical pair. -/
def updateWindowSizeMsg (m : Model) (msgWidth msgHeight : Int) : Model :=
  let rawWidth := if msgWidth ≤ 0 then 120 else msgWidth
  let rawHeight := if msgHeight ≤ 0 then 40 else msgHeight
  let rawWidth := if rawWidth < 40 then 40 else rawWidth
  let rawHeight := if rawHeight < 10 then 10 else rawHeight
  let m1 := { m with width := rawWidth, height := rawHeight }
  if m1.sshTerminalPTY.isSome then
    let rows := availableRows rawHeight m.topPad
    let cols := availableCols rawWidth
    let m2 := { m1 with sshTerminalPTY := some ⟨toUint16 rows, toUint16 cols⟩ }
    if m2.sshTerminalEmulator.isSome then
      { m2 with sshTerminalEmulator := some (cols, rows) }
    else m2
  else m1

/-- the Winsize startSSHTerminal passes to pty.StartWithSize
(src/main.go lines 5202-5205): a fixed 24 rows by 80 cols. -/
def startSSHTerminalInitialWinsize : Winsize := ⟨24, 80⟩

/-- the sshTerminalStartedMsg case of model.Update (src/main.go lines
1005-1035): store the PTY (whose size is still the launch 24 by 80) and
the command, then immediately Setsize the PTY with the floor-clamped
viewport and Resize the emulator, if present, with the identical pair. -/
def updateSSHTerminalStartedMsg (m : Model) (host ip : String) : Model :=
  let m1 := { m with
      sshTerminalPTY := some startSSHTerminalInitialWinsize
      sshTerminalCmd := true
      sshTerminalHost := host
      sshTerminalIP := ip }
  let rows := availableRows m1.height m1.topPad
  let cols := availableCols m1.width
  let m2 := { m1 with sshTerminalPTY := some ⟨toUint16 rows, toUint16 cols⟩ }
  if m2.sshTerminalEmulator.isSome then
    { m2 with sshTerminalEmulator := some (cols, rows) }
  else m2

/-- the geometry part of model.renderSSHTerminal (src/main.go lines
3696-3720): the display size is availableRows for rows but the raw
`m.width - 4` for cols, with no 40-column floor; if the emulator
dimensions differ from that display size the emulator is resized to it
before the frame is produced. -/
def renderSSHTerminalResize (m : Model) : Model :=
  let displayRows := availableRows m.height m.topPad
  let displayCols := m.width - 4
  match m.sshTerminalEmulator with
  | none => m
  | some (c, r) =>
    if c ≠ displayCols ∨ r ≠ displayRows then
      { m with sshTerminalEmulator := some (displayCols, displayRows) }
    else m

/-- Go strings.Split(content, sep) for the single-character separator
newline, as called at src/main.go line 3740: every newline splits, an
empty input gives one empty field, a trailing newline gives a trailing
empty field. -/
def splitLines : List Char → List String
  | [] => [""]
  | c :: rest =>
    let tail := splitLines rest
    if c = '\n' then "" :: tail
    else
      match tail with
      | [] => [String.mk [c]]
      | s :: ss => String.mk (c :: s.data) :: ss

/-- the trailing-empty-line removal at src/main.go lines 3743-3745. -/
def stripTrailingEmpty (lines : List String) : List String :=
  match lines.getLast? with
  | some s => if s = "" then lines.dropLast else lines
  | none => lines

/-- the line fix-up of model.renderSSHTerminal (src/main.go lines
3740-3757): split the emulator output on newlines, drop one trailing
empty line, then pad with empty lines up to displayRows or keep only
the last displayRows lines. -/
def renderSSHTerminalLines (content : String) (displayRows : Nat) : List String :=
  let lines := stripTrailingEmpty (splitLines content.data)
  if lines.length < displayRows then
    lines ++ List.replicate (displayRows - lines.length) ""
  else if lines.length > displayRows then
    lines.drop (lines.length - displayRows)
  else lines

/-- the user-visible text enqueued just before the Closed event
(src/main.go line 5224). -/
def connectionClosedText : Bytes := goBytes "\r\n[Connection closed]\r\n"

/-- one blocking read from the PTY master as the reader goroutine sees
it: bytes read successfully, end of stream, or another read error. -/
inductive ReadResult where
  | ok (data : Bytes)
  | eofRes
  | failRes (cause : String)
  deriving Repr, DecidableEq

/-- the reader goroutine of startSSHTerminal (src/main.go lines
5211-5236) applied to a prefix of the read-result stream: each
successful nonempty read enqueues its bytes; end of stream enqueues the
user-visible message and one Closed event and returns; any other error
enqueues one Error event and returns.  The returns make the function
ignore everything after the first non-ok result. -/
def readerEvents : List ReadResult → List SSHEvent
  | [] => []
  | .ok data :: rest =>
    (if data.length > 0 then [SSHEvent.outputMsg data] else []) ++ readerEvents rest
  | .eofRes :: _ => [SSHEvent.outputMsg connectionClosedText, SSHEvent.closedMsg]
  | .failRes c :: _ => [SSHEvent.errMsg c]

/-- the events the reader enqueues for the successful reads alone. -/
def okEvents : List ReadResult → List SSHEvent
  | [] => []
  | .ok data :: rest =>
    (if data.length > 0 then [SSHEvent.outputMsg data] else []) ++ okEvents rest
  | _ :: rest => okEvents rest

/-- whether an event is an Error event. -/
def isErrEvent : SSHEvent → Bool
  | .errMsg _ => true
  | _ => false

/-- a concrete model with a live SSH session: 120 by 40 host window,
default top padding 1, PTY and emulator sized by the started-message
path. -/
def mActive : Model :=
  { width := 120
    height := 40
    topPad := 1
    sshTerminalActive := true
    sshTerminalPTY := some ⟨33, 116⟩
    sshTerminalCmd := true
    sshTerminalEmulator := some (116, 33)
    sshTerminalParser := true
    sshTerminalHost := "web-1"
    sshTerminalIP := "10.0.0.1"
    sshTerminalRawOutput := some "" }

/-! ## Helper lemmas -/

/-- the reader loop output for a stream that ends in a clean EOF is the
events of the successful reads followed by the user-visible message and
one Closed event; everything after the EOF is ignored. -/
theorem readerEvents_eof_aux (post : List ReadResult) :
    ∀ pre : List ReadResult, (∀ r ∈ pre, ∃ d, r = ReadResult.ok d) →
    readerEvents (pre ++ ReadResult.eofRes :: post) =
      okEvents pre ++ [SSHEvent.outputMsg connectionClosedText, SSHEvent.closedMsg] := by
  intro pre
  induction pre with
  | nil => intro _; rfl
  | cons r rest ih =>
    intro hpre
    obtain ⟨d, rfl⟩ := hpre r (by simp)
    have hrest := ih (fun r hr => hpre r (by simp [hr]))
    simp only [List.cons_append, readerEvents, okEvents, List.append_eq, hrest,
      List.append_assoc]

/-- the reader loop output for a stream that ends in a non-EOF error is
the events of the successful reads followed by one Error event;
everything after the error is ignored. -/
theorem readerEvents_fail_aux (post : List ReadResult) (c : String) :
    ∀ pre : List ReadResult, (∀ r ∈ pre, ∃ d, r = ReadResult.ok d) →
    readerEvents (pre ++ ReadResult.failRes c :: post) =
      okEvents pre ++ [SSHEvent.errMsg c] := by
  intro pre
  induction pre with
  | nil => intro _; rfl
  | cons r rest ih =>
    intro hpre
    obtain ⟨d, rfl⟩ := hpre r (by simp)
    have hrest := ih (fun r hr => hpre r (by simp [hr]))
    simp only [List.cons_append, readerEvents, okEvents, List.append_eq, hrest,
      List.append_assoc]

/-- the events of the successful reads contain no Closed event. -/
theorem okEvents_count_closed (l : List ReadResult) :
    (okEvents l).count SSHEvent.closedMsg = 0 := by
  induction l with
  | nil => rfl
  | cons r rest ih =>
    cases r with
    | ok d =>
      simp only [okEvents, List.count_append, ih]
      split_ifs <;> simp [List.count_cons, List.count_nil]
    | eofRes => simpa [okEvents] using ih
    | failRes c => simpa [okEvents] using ih

/-- the events of the successful reads contain no Error event. -/
theorem okEvents_countP_err (l : List ReadResult) :
    (okEvents l).countP isErrEvent = 0 := by
  induction l with
  | nil => rfl
  | cons r rest ih =>
    cases r with
    | ok d =>
      simp only [okEvents, List.countP_append, ih]
      split_ifs <;> simp [List.countP_cons, isErrEvent]
    | eofRes => simpa [okEvents] using ih
    | failRes c => simpa [okEvents] using ih

/-! ## Claim theorems -/

/-- C1: the claim that the rows/cols pair last sent to the OS PTY always
equals the pair last sent to the emulation engine fails on the code, at
a point where a frame is rendered.  Concrete run: with an active
session, resizing the host window to 40 by 30 sends the floor-clamped
pair rows 23 / cols 40 to both the PTY and the engine, but the render
path then recomputes cols as width minus 4 with no 40-column floor and
resizes the engine to 36 by 23 while the PTY stays at 40 columns. -/
theorem resize_render_divergence :
    (updateWindowSizeMsg mActive 40 30).sshTerminalPTY = some ⟨23, 40⟩ ∧
    (updateWindowSizeMsg mActive 40 30).sshTerminalEmulator = some (40, 23) ∧
    (renderSSHTerminalResize (updateWindowSizeMsg mActive 40 30)).sshTerminalPTY =
      some ⟨23, 40⟩ ∧
    (renderSSHTerminalResize (updateWindowSizeMsg mActive 40 30)).sshTerminalEmulator =
      some (36, 23) ∧
    (36 : Int) ≠ (40 : Int) := by decide

/-- C2: the input encoder (the key switch of model.handleSSHInput)
produces exactly the documented byte sequence for every modelled
KeyEvent variant: runes are sent as their UTF-8 bytes, Enter is 0x0D,
Backspace is 0x7f and not 0x08, Tab is 0x09, Space is 0x20,
Ctrl+C / Ctrl+D / Ctrl+Z are 0x03 / 0x04 / 0x1a, every Ctrl+letter is
1 + the letter offset, the arrows are ESC [ A..D, Delete is ESC [ 3 ~,
F1..F4 are ESC O P..S, F5..F12 are ESC [ 15~ .. 24~, and unmapped
events (shift+tab, insert, ctrl+pgup, ctrl+pgdown, an empty rune
payload) produce zero bytes. -/
theorem input_encoder_table :
    (∀ rs : List Char, rs ≠ [] → keyToBytes ⟨keyRunes, rs⟩ = goBytes (String.mk rs)) ∧
    (∀ i : Nat, i < 26 → keyToBytes ⟨keyCtrlA + (i : Int), []⟩ = [1 + i]) ∧
    (keyToBytes ⟨keyEnter, []⟩ = [0x0d] ∧
     keyToBytes ⟨keyBackspace, []⟩ = [0x7f] ∧
     keyToBytes ⟨keyBackspace, []⟩ ≠ [0x08] ∧
     keyToBytes ⟨keyTab, []⟩ = [0x09] ∧
     keyToBytes ⟨keySpace, []⟩ = [0x20] ∧
     keyToBytes ⟨keyCtrlC, []⟩ = [0x03] ∧
     keyToBytes ⟨keyCtrlD, []⟩ = [0x04] ∧
     keyToBytes ⟨keyCtrlZ, []⟩ = [0x1a] ∧
     keyToBytes ⟨keyUp, []⟩ = [0x1b, 0x5b, 0x41] ∧
     keyToBytes ⟨keyDown, []⟩ = [0x1b, 0x5b, 0x42] ∧
     keyToBytes ⟨keyRight, []⟩ = [0x1b, 0x5b, 0x43] ∧
     keyToBytes ⟨keyLeft, []⟩ = [0x1b, 0x5b, 0x44] ∧
     keyToBytes ⟨keyDelete, []⟩ = [0x1b, 0x5b, 0x33, 0x7e] ∧
     keyToBytes ⟨keyF1, []⟩ = [0x1b, 0x4f, 0x50] ∧
     keyToBytes ⟨keyF2, []⟩ = [0x1b, 0x4f, 0x51] ∧
     keyToBytes ⟨keyF3, []⟩ = [0x1b, 0x4f, 0x52] ∧
     keyToBytes ⟨keyF4, []⟩ = [0x1b, 0x4f, 0x53] ∧
     keyToBytes ⟨keyF5, []⟩ = [0x1b, 0x5b, 0x31, 0x35, 0x7e] ∧
     keyToBytes ⟨keyF6, []⟩ = [0x1b, 0x5b, 0x31, 0x37, 0x7e] ∧
     keyToBytes ⟨keyF7, []⟩ = [0x1b, 0x5b, 0x31, 0x38, 0x7e] ∧
     keyToBytes ⟨keyF8, []⟩ = [0x1b, 0x5b, 0x31, 0x39, 0x7e] ∧
     keyToBytes ⟨keyF9, []⟩ = [0x1b, 0x5b, 0x32, 0x30, 0x7e] ∧
     keyToBytes ⟨keyF10, []⟩ = [0x1b, 0x5b, 0x32, 0x31, 0x7e] ∧
     keyToBytes ⟨keyF11, []⟩ = [0x1b, 0x5b, 0x32, 0x33, 0x7e] ∧
     keyToBytes ⟨keyF12, []⟩ = [0x1b, 0x5b, 0x32, 0x34, 0x7e] ∧
     keyToBytes ⟨keyShiftTab, []⟩ = [] ∧
     keyToBytes ⟨keyInsert, []⟩ = [] ∧
     keyToBytes ⟨keyCtrlPgUp, []⟩ = [] ∧
     keyToBytes ⟨keyCtrlPgDown, []⟩ = [] ∧
     keyToBytes ⟨keyRunes, []⟩ = []) := by
  refine ⟨?_, by decide, by decide⟩
  intro rs h
  have hlen : 0 < rs.length := List.length_pos.mpr h
  simp [keyToBytes, keyRunes, keyEnter, keyBackspace, keyTab, keySpace, keyCtrlC, keyCtrlD,
    keyCtrlZ, keyUp, keyDown, keyLeft, keyRight, keyDelete, keyF1, keyF2, keyF3, keyF4,
    keyF5, keyF6, keyF7, keyF8, keyF9, keyF10, keyF11, keyF12, hlen]

/-- C2 witness: the theorem instantiated at the rune "a" and at the
Ctrl+letter offset 1 (Ctrl+B), with both hypotheses discharged. -/
theorem input_encoder_table_witness :
    keyToBytes ⟨keyRunes, ['a']⟩ = goBytes (String.mk ['a']) ∧
    keyToBytes ⟨keyCtrlA + ((1 : Nat) : Int), []⟩ = [1 + 1] :=
  ⟨input_encoder_table.1 ['a'] (by decide),
   input_encoder_table.2.1 1 (by decide)⟩

/-- C3: the claim that Home, End, PageUp and PageDown are encoded as
ESC [ H, ESC [ F, ESC [ 5 ~ and ESC [ 6 ~ fails on the code: the key
switch of model.handleSSHInput routes only the arrows, Delete and the
function keys to getANSISequence, so these four keys fall to the
default branch (empty rune payload, multi-byte key name, not in the
Ctrl range) and produce zero bytes, even though getANSISequence does
contain the documented sequences for them. -/
theorem home_end_page_keys_send_no_bytes :
    keyToBytes ⟨keyHome, []⟩ = [] ∧
    keyToBytes ⟨keyEnd, []⟩ = [] ∧
    keyToBytes ⟨keyPgUp, []⟩ = [] ∧
    keyToBytes ⟨keyPgDown, []⟩ = [] ∧
    (handleSSHInput mActive ⟨keyHome, []⟩).2.writes = [] ∧
    (handleSSHInput mActive ⟨keyEnd, []⟩).2.writes = [] ∧
    (handleSSHInput mActive ⟨keyPgUp, []⟩).2.writes = [] ∧
    (handleSSHInput mActive ⟨keyPgDown, []⟩).2.writes = [] ∧
    getANSISequence keyHome = [0x1b, 0x5b, 0x48] ∧
    getANSISequence keyEnd = [0x1b, 0x5b, 0x46] ∧
    getANSISequence keyPgUp = [0x1b, 0x5b, 0x35, 0x7e] ∧
    getANSISequence keyPgDown = [0x1b, 0x5b, 0x36, 0x7e] := by decide

/-- C4: a bare Escape while the session is active and no confirmation
is pending writes zero bytes and sets the close-confirmation flag; and
an Escape key message never puts bytes on the PTY in any state, so in
particular bytes are written for Escape only while a confirmation is
already pending (vacuously). -/
theorem escape_reserved_for_confirm :
    (∀ (m : Model) (k : KeyMsg), m.sshTerminalActive = true →
        m.sshTerminalConfirmExit = false → (k.type = keyEsc ∨ k.keyStr = "esc") →
        updateSSHTerminal m (.key k) = ({ m with sshTerminalConfirmExit := true }, noEff)) ∧
    (∀ (m : Model) (k : KeyMsg), (k.type = keyEsc ∨ k.keyStr = "esc") →
        (updateSSHTerminal m (.key k)).2.writes = []) := by
  constructor
  · intro m k _ hc hk
    simp only [updateSSHTerminal, hc, Bool.false_eq_true, if_false]
    unfold handleSSHInput
    rw [if_pos hk, if_pos hc]
  · intro m k hk
    by_cases hc : m.sshTerminalConfirmExit
    · simp only [updateSSHTerminal, hc, if_true]
      split_ifs <;> simp [closeSSHTerminal, noEff]
    · simp only [updateSSHTerminal, hc, Bool.false_eq_true, if_false]
      unfold handleSSHInput
      rw [if_pos hk]
      split_ifs <;> rfl

/-- C4 witness: the theorem instantiated at the concrete active model
and the Escape key message. -/
theorem escape_reserved_for_confirm_witness :
    updateSSHTerminal mActive (TeaMsg.key ⟨keyEsc, []⟩) =
      ({ mActive with sshTerminalConfirmExit := true }, noEff) :=
  escape_reserved_for_confirm.1 mActive ⟨keyEsc, []⟩ rfl rfl (Or.inl rfl)

/-- C5: for every engine output string and every row budget, the
renderer line fix-up returns exactly that many lines: when the engine
returns fewer lines it appends blank lines, and when it returns more it
keeps only the most recent rows-many lines. -/
theorem renderedFrame_exact_rows (content : String) (rows : Nat) :
    (renderSSHTerminalLines content rows).length = rows ∧
    ((stripTrailingEmpty (splitLines content.data)).length ≤ rows →
      renderSSHTerminalLines content rows =
        stripTrailingEmpty (splitLines content.data) ++
          List.replicate (rows - (stripTrailingEmpty (splitLines content.data)).length) "") ∧
    (rows < (stripTrailingEmpty (splitLines content.data)).length →
      renderSSHTerminalLines content rows =
        (stripTrailingEmpty (splitLines content.data)).drop
          ((stripTrailingEmpty (splitLines content.data)).length - rows)) := by
  have key : ∀ ls : List String, ∀ r : Nat,
      (if ls.length < r then ls ++ List.replicate (r - ls.length) ""
       else if ls.length > r then ls.drop (ls.length - r) else ls).length = r ∧
      (ls.length ≤ r →
        (if ls.length < r then ls ++ List.replicate (r - ls.length) ""
         else if ls.length > r then ls.drop (ls.length - r) else ls) =
          ls ++ List.replicate (r - ls.length) "") ∧
      (r < ls.length →
        (if ls.length < r then ls ++ List.replicate (r - ls.length) ""
         else if ls.length > r then ls.drop (ls.length - r) else ls) =
          ls.drop (ls.length - r)) := by
    intro ls r
    rcases Nat.lt_trichotomy ls.length r with h | h | h
    · rw [if_pos h]
      refine ⟨?_, fun _ => rfl, fun hgt => absurd h (by omega)⟩
      simp only [List.length_append, List.length_replicate]; omega
    · rw [if_neg (by omega), if_neg (by omega)]
      refine ⟨h, fun _ => ?_, fun hgt => absurd hgt (by omega)⟩
      rw [show r - ls.length = 0 from by omega]
      simp
    · rw [if_neg (by omega), if_pos (by omega)]
      refine ⟨?_, fun hle => absurd hle (by omega), fun _ => rfl⟩
      simp only [List.length_drop]; omega
  exact key (stripTrailingEmpty (splitLines content.data)) rows

/-- C5 witness: the pad branch of the theorem at the concrete engine
output "hello CR LF world CR LF" rendered into four rows. -/
theorem renderedFrame_exact_rows_witness :
    renderSSHTerminalLines "hello\nworld\n" 4 =
      stripTrailingEmpty (splitLines ("hello\nworld\n").data) ++
        List.replicate
          (4 - (stripTrailingEmpty (splitLines ("hello\nworld\n").data)).length) "" :=
  (renderedFrame_exact_rows "hello\nworld\n" 4).2.1 (by decide)

/-- C6: teardown is idempotent: the second of two consecutive
invocations performs no kill and no close and leaves the model
unchanged; the first invocation kills at most once (exactly when a
process is held) and closes at most once (exactly when a PTY is held);
and invoking teardown with no process and no PTY performs no release at
all. -/
theorem closeSSHTerminal_idempotent (m : Model) :
    (closeSSHTerminal (closeSSHTerminal m).1).1 = (closeSSHTerminal m).1 ∧
    (closeSSHTerminal (closeSSHTerminal m).1).2 = noEff ∧
    (closeSSHTerminal m).2.kills = (if m.sshTerminalCmd then 1 else 0) ∧
    (closeSSHTerminal m).2.closes = (if m.sshTerminalPTY.isSome then 1 else 0) ∧
    (m.sshTerminalCmd = false → m.sshTerminalPTY = none → (closeSSHTerminal m).2 = noEff) := by
  obtain ⟨w, h, p, a, ce, pty, cmd, emu, par, host, ip, raw, chan⟩ := m
  refine ⟨?_, rfl, rfl, rfl, ?_⟩
  · cases raw <;> rfl
  · intro h1 h2
    simp only at h1 h2
    subst h1; subst h2; rfl

/-- C6 witness: the no-session clause of the theorem at a concrete
model with no process and no PTY. -/
theorem closeSSHTerminal_idempotent_witness :
    (closeSSHTerminal
        { mActive with sshTerminalCmd := false, sshTerminalPTY := none }).2 = noEff :=
  (closeSSHTerminal_idempotent
    { mActive with sshTerminalCmd := false, sshTerminalPTY := none }).2.2.2.2 rfl rfl

/-- C7: the claim that the launcher sets the initial PTY size from the
current viewport is false: pty.StartWithSize is passed the fixed size
24 rows by 80 cols, which differs from the viewport-derived size of a
120 by 50 host window with top padding 1. -/
theorem launcher_initial_size_not_viewport :
    startSSHTerminalInitialWinsize = ⟨24, 80⟩ ∧
    viewportWinsize 120 50 1 = ⟨43, 116⟩ ∧
    startSSHTerminalInitialWinsize ≠ viewportWinsize 120 50 1 := by decide

/-- C7 amended: the launcher starts the child with the fixed 24 by 80
PTY size; the viewport-derived, floor-clamped size is applied to the
PTY only when the started message is processed on the UI loop. -/
theorem launcher_size_applied_on_started_msg :
    startSSHTerminalInitialWinsize = ⟨24, 80⟩ ∧
    ∀ (m : Model) (host ip : String),
      (updateSSHTerminalStartedMsg m host ip).sshTerminalPTY =
        some (viewportWinsize m.width m.height m.topPad) := by
  refine ⟨rfl, ?_⟩
  intro m host ip
  simp only [updateSSHTerminalStartedMsg, viewportWinsize]
  split <;> rfl

/-- C8: for every read stream, on clean end-of-stream the reader
enqueues the user-visible message followed by exactly one Closed event
and ignores everything after; on any other read error it enqueues
exactly one Error event carrying the cause and ignores everything
after. -/
theorem reader_stops_after_terminal_event (pre post : List ReadResult) (c : String)
    (hpre : ∀ r ∈ pre, ∃ d, r = ReadResult.ok d) :
    readerEvents (pre ++ ReadResult.eofRes :: post) =
      okEvents pre ++ [SSHEvent.outputMsg connectionClosedText, SSHEvent.closedMsg] ∧
    readerEvents (pre ++ ReadResult.failRes c :: post) =
      okEvents pre ++ [SSHEvent.errMsg c] ∧
    (readerEvents (pre ++ ReadResult.eofRes :: post)).count SSHEvent.closedMsg = 1 ∧
    (readerEvents (pre ++ ReadResult.failRes c :: post)).countP isErrEvent = 1 := by
  refine ⟨readerEvents_eof_aux post pre hpre, readerEvents_fail_aux post c pre hpre, ?_, ?_⟩
  · rw [readerEvents_eof_aux post pre hpre, List.count_append, okEvents_count_closed]
    simp [List.count_cons]
  · rw [readerEvents_fail_aux post c pre hpre, List.countP_append, okEvents_countP_err]
    simp [List.countP_cons, isErrEvent]

/-- C8 witness: the EOF clause of the theorem at a concrete stream with
one successful read before the EOF and one ignored read after it. -/
theorem reader_stops_after_terminal_event_witness :
    readerEvents
        ([ReadResult.ok (goBytes "hi")] ++ ReadResult.eofRes :: [ReadResult.ok (goBytes "bye")]) =
      okEvents [ReadResult.ok (goBytes "hi")] ++
        [SSHEvent.outputMsg connectionClosedText, SSHEvent.closedMsg] :=
  (reader_stops_after_terminal_event [ReadResult.ok (goBytes "hi")]
    [ReadResult.ok (goBytes "bye")] "cause"
    (fun r hr => ⟨goBytes "hi", by simpa using hr⟩)).1

/-- C9: the claim that the viewport dimensions propagated to the engine
always satisfy the 40-column floor fails on the code through the render
path: with an active session, after the host window resizes to 41 by 30
the render path resizes the engine to 37 columns, below the floor that
every Setsize path enforces. -/
theorem render_path_breaks_col_floor :
    (renderSSHTerminalResize (updateWindowSizeMsg mActive 41 30)).sshTerminalEmulator =
      some (37, 23) ∧
    (37 : Int) < 40 := by decide

/-- C10: while the exit-confirmation dialog is pending, no message of
any kind writes bytes to the PTY: y/Y clears the flag and tears the
session down, n/N/esc clears the flag and leaves the session alone,
every other key leaves the model unchanged, and non-key messages are
ignored. -/
theorem confirm_dialog_behavior (m : Model) (hm : m.sshTerminalConfirmExit = true) :
    (∀ msg : TeaMsg, (updateSSHTerminal m msg).2.writes = []) ∧
    (∀ k : KeyMsg, (k.keyStr = "y" ∨ k.keyStr = "Y") →
        updateSSHTerminal m (.key k) =
          closeSSHTerminal { m with sshTerminalConfirmExit := false }) ∧
    (∀ k : KeyMsg, (k.keyStr = "n" ∨ k.keyStr = "N" ∨ k.keyStr = "esc") →
        updateSSHTerminal m (.key k) = ({ m with sshTerminalConfirmExit := false }, noEff)) ∧
    (∀ k : KeyMsg, k.keyStr ∉ (["y", "Y", "n", "N", "esc"] : List String) →
        updateSSHTerminal m (.key k) = (m, noEff)) ∧
    (updateSSHTerminal m TeaMsg.nonKey = (m, noEff)) := by
  refine ⟨?_, ?_, ?_, ?_, ?_⟩
  · intro msg
    cases msg with
    | key k =>
      simp only [updateSSHTerminal, hm, if_true]
      split_ifs <;> simp [closeSSHTerminal, noEff]
    | nonKey => simp [updateSSHTerminal, hm, noEff]
  · intro k hk
    simp only [updateSSHTerminal, hm, if_true]
    rw [if_pos hk]
  · intro k hk
    simp only [updateSSHTerminal, hm, if_true]
    have hne : ¬ (k.keyStr = "y" ∨ k.keyStr = "Y") := by
      rcases hk with h | h | h <;> simp [h]
    rw [if_neg hne, if_pos hk]
  · intro k hk
    simp only [List.mem_cons, List.mem_singleton, not_or] at hk
    obtain ⟨h1, h2, h3, h4, h5⟩ := hk
    simp only [updateSSHTerminal, hm, if_true]
    rw [if_neg (by simp [h1, h2]), if_neg (by simp [h3, h4, h5])]
  · simp [updateSSHTerminal, hm]

/-- C10 witness: the cancel clause of the theorem at the concrete
pending-confirmation model and the rune "n". -/
theorem confirm_dialog_behavior_witness :
    updateSSHTerminal { mActive with sshTerminalConfirmExit := true }
        (TeaMsg.key ⟨keyRunes, ['n']⟩) =
      ({ { mActive with sshTerminalConfirmExit := true } with
          sshTerminalConfirmExit := false }, noEff) :=
  (confirm_dialog_behavior { mActive with sshTerminalConfirmExit := true } rfl).2.2.1
    ⟨keyRunes, ['n']⟩ (Or.inl (by decide))

end Dogoctl
